import Mathlib

/-!
Shallow embedding of the TgSteamKeyActivator repository: the key-extraction
and redemption pipeline (channel filters, key normalization, the Steam key
activator, and handler loading), with theorems checking the specification
claims against these definitions.
-/

set_option maxRecDepth 4096

/-! ## Key normalization (handler/freebie_steam-handler.js, filterCdKeyText) -/

/-- Membership in the JS word-character class backslash-w, i.e. [A-Za-z0-9_],
used by the regex in filterCdKeyText. -/
def isWordChar (c : Char) : Bool :=
  (decide ('A' ≤ c) && decide (c ≤ 'Z')) ||
  (decide ('a' ≤ c) && decide (c ≤ 'z')) ||
  (decide ('0' ≤ c) && decide (c ≤ '9')) ||
  (c == '_')

/-- Characters kept by the first replace in filterCdKeyText: the regex
removes every character that is not a word character, an em-dash or a dash. -/
def keepChar (c : Char) : Bool :=
  isWordChar c || c == '—' || c == '-'

/-- The second replace in filterCdKeyText: every em-dash or dash becomes an
ordinary dash; everything else is unchanged. -/
def convChar (c : Char) : Char :=
  if c == '—' || c == '-' then '-' else c

/-- Embedding of filterCdKeyText from handler/freebie_steam-handler.js:
first remove every character outside [A-Za-z0-9_—-], then replace every
em-dash or dash with a dash. -/
def filterCdKeyText (cdKey : String) : String :=
  String.mk (((cdKey.data.filter keepChar).map convChar))

/-! ## Text-filter key extraction (handler for the g2keys channel, parseCdKey) -/

/-- Membership in the character class of the extraction regex
[ A-Z0-9—-]: space, upper-case letters, digits, em-dash, dash. -/
def inKeyClass (c : Char) : Bool :=
  (c == ' ') ||
  (decide ('A' ≤ c) && decide (c ≤ 'Z')) ||
  (decide ('0' ≤ c) && decide (c ≤ '9')) ||
  (c == '—') || (c == '-')

/-- Collects the maximal runs of characters satisfying inKeyClass, left to
right; the accumulator holds the current run reversed. -/
def keyRunsAux : List Char → List Char → List (List Char)
  | [], acc => if acc.isEmpty then [] else [acc.reverse]
  | c :: rest, acc =>
    if inKeyClass c then keyRunsAux rest (c :: acc)
    else if acc.isEmpty then keyRunsAux rest []
    else acc.reverse :: keyRunsAux rest []

/-- Semantics of chatMessage.match(pattern) with the global flag for the
pattern [ A-Z0-9—-] repeated 5 or more times: the list of maximal runs of
class characters of length at least 5, or JS null (modelled as none) when
there is no match. -/
def jsMatchKeyPattern (s : String) : Option (List String) :=
  let runs := ((keyRunsAux s.data []).filter (fun r => 5 ≤ r.length)).map String.mk
  if runs.isEmpty then none else some runs

/-- Whitespace for the purposes of JS String.prototype.trim, restricted to
the whitespace characters that can occur in this pipeline. -/
def isJsSpace (c : Char) : Bool :=
  c == ' ' || c == '\t' || c == '\n' || c == '\r'

/-- Semantics of JS String.prototype.trim: remove leading and trailing
whitespace. -/
def jsTrim (s : String) : String :=
  String.mk (((s.data.dropWhile isJsSpace).reverse.dropWhile isJsSpace).reverse)

/-- Embedding of parseCdKey from the g2keys handler. The JS guard tests
probalyKeys !== undefined, but String.match returns null (never undefined)
when nothing matches, so on a non-matching message the guard passes and
probalyKeys.length throws a TypeError; the Except.error case records that
thrown exception. -/
def parseCdKey (chatMessage : String) : Except String (Option String) :=
  match jsMatchKeyPattern chatMessage with
  | none => .error "TypeError: Cannot read property length of null"
  | some probalyKeys =>
    if h : 0 < probalyKeys.length then
      .ok (some (jsTrim (probalyKeys.get ⟨0, h⟩)))
    else
      .ok none

/-! ## Telegram inbound event model (shape consumed by the channel filters) -/

/-- An image locator as delivered inside a photo size entry. -/
structure FileLocation where
  dc_id : Nat
  volume_id : Nat
  local_id : Nat
  secret : Nat
deriving DecidableEq, Repr

/-- One entry of photo.sizes. -/
structure PhotoSize where
  location : FileLocation
  size : Nat
deriving DecidableEq, Repr

/-- The photo object of a messageMediaPhoto media. -/
structure Photo where
  id : Nat
  sizes : List PhotoSize
deriving DecidableEq, Repr

/-- Discriminator of message.media, mirroring the JS tag field. -/
inductive MediaKind where
  | messageMediaPhoto
  | otherMedia
deriving DecidableEq, Repr

/-- A message.media object. -/
structure Media where
  kind : MediaKind
  photo : Photo
deriving DecidableEq, Repr

/-- The to_id object of a channel message. -/
structure ToId where
  channel_id : Nat
deriving DecidableEq, Repr

/-- A Telegram message as read by the filters: target channel, body text and
optional media. -/
structure TgMessage where
  to_id : ToId
  message : String
  media : Option Media
deriving DecidableEq, Repr

/-- Discriminator of an element of eventData.updates. -/
inductive UpdateKind where
  | updateNewChannelMessage
  | otherUpdate
deriving DecidableEq, Repr

/-- One element of the updates array. -/
structure TgUpdate where
  kind : UpdateKind
  message : TgMessage
deriving DecidableEq, Repr

/-- An inbound event as dispatched by the event emitter: either an updates
container or some other protocol message. -/
inductive EventData where
  | updates (l : List TgUpdate)
  | otherEvent
deriving DecidableEq, Repr

/-! ## Text filter for the g2keys channel (eventsFilter and the handler) -/

/-- The channel id the g2keys text filter is bound to. -/
def g2keysChatId : Nat := 1298051109

/-- Loop body of eventsFilter in the g2keys handler: scan the updates array
for a new-channel-message on the configured channel whose body differs from
lastMsg; on a hit, update lastMsg and return the body; a body equal to
lastMsg is skipped and scanning continues. Returns the new lastMsg and the
optional extracted body. -/
def g2keysScan (lastMsg : String) : List TgUpdate → String × Option String
  | [] => (lastMsg, none)
  | u :: rest =>
    if u.kind ≠ UpdateKind.updateNewChannelMessage then g2keysScan lastMsg rest
    else if u.message.to_id.channel_id ≠ g2keysChatId then g2keysScan lastMsg rest
    else if lastMsg ≠ u.message.message then (u.message.message, some u.message.message)
    else g2keysScan lastMsg rest

/-- Embedding of eventsFilter from the g2keys handler: events that are not
an updates container are ignored; otherwise the updates array is scanned.
The first component is the closure-captured lastMsg after the call. -/
def g2keysEventsFilter (lastMsg : String) (eventData : EventData) :
    String × Option String :=
  match eventData with
  | .otherEvent => (lastMsg, none)
  | .updates l => g2keysScan lastMsg l

/-- Embedding of one run of the g2keys event handler on one inbound event:
eventsFilter, then parseCdKey, then KeyActivator.activate with its rejection
swallowed by catch. An Except.error is an exception escaping the handler to
the event emitter (the handler installs no try/catch around parseCdKey).
Returns the new lastMsg state, and on normal completion the key passed to
activate, if any. -/
def g2keysHandlerStep (lastMsg : String) (eventData : EventData) :
    String × Except String (Option String) :=
  match g2keysEventsFilter lastMsg eventData with
  | (lastMsg2, none) => (lastMsg2, .ok none)
  | (lastMsg2, some chatMessage) =>
    match parseCdKey chatMessage with
    | .error e => (lastMsg2, .error e)
    | .ok none => (lastMsg2, .ok none)
    | .ok (some cdKey) => (lastMsg2, .ok (some cdKey))

/-- Builds the updates event carrying a single new-channel-message with the
given body on the g2keys channel. -/
def g2keysTextEvent (body : String) : EventData :=
  .updates [⟨.updateNewChannelMessage, ⟨⟨g2keysChatId⟩, body, none⟩⟩]

/-! ## Image filter for the freebie_steam channel (eventsFilter) -/

/-- The channel id the freebie_steam image filter is bound to. -/
def freebieChatId : Nat := 1195028505

/-- The value returned by the freebie_steam eventsFilter on a match:
the selected size entry's location and size, and the photo's id. -/
structure FileInfo where
  location : FileLocation
  size : Nat
  id : Nat
deriving DecidableEq, Repr

/-- Loop body of eventsFilter in handler/freebie_steam-handler.js: scan for
a new-channel-message on the configured channel with empty body text and a
messageMediaPhoto media, and return the last element of photo.sizes with
the photo id. Indexing sizes[sizes.length - 1] on an empty sizes array
yields undefined and reading its location throws, modelled as Except.error. -/
def freebieScan : List TgUpdate → Except String (Option FileInfo)
  | [] => .ok none
  | u :: rest =>
    if u.kind ≠ UpdateKind.updateNewChannelMessage then freebieScan rest
    else if u.message.to_id.channel_id ≠ freebieChatId then freebieScan rest
    else if u.message.message ≠ "" then freebieScan rest
    else
      match u.message.media with
      | none => freebieScan rest
      | some media =>
        if media.kind ≠ MediaKind.messageMediaPhoto then freebieScan rest
        else
          match media.photo.sizes.getLast? with
          | none => .error "TypeError: Cannot read property location of undefined"
          | some last => .ok (some ⟨last.location, last.size, media.photo.id⟩)

/-- Embedding of eventsFilter from handler/freebie_steam-handler.js. -/
def freebieEventsFilter (eventData : EventData) : Except String (Option FileInfo) :=
  match eventData with
  | .otherEvent => .ok none
  | .updates l => freebieScan l

/-! ## Key activator (steam/key_activator.js) -/

/-- Error code exported as EC_ACTIVATION_FAILED. -/
def EC_ACTIVATION_FAILED : Nat := 1

/-- Error code exported as EC_ACTIVATION_FAILED_ALREADY_ACTIVATED. -/
def EC_ACTIVATION_FAILED_ALREADY_ACTIVATED : Nat := 2

/-- Error code exported as EC_NOT_INITED. -/
def EC_NOT_INITED : Nat := 3

/-- The Steam EResult.OK result code. -/
def EResult_OK : Nat := 1

/-- A redemption response as read by the activate callback. -/
structure PurchaseResponse where
  eresult : Nat
  purchase_result_details : Nat
deriving DecidableEq, Repr

/-- The switch over purchase_result_details in activate of
steam/key_activator.js: errorCode starts as EC_ACTIVATION_FAILED; the cases
for detail codes 9 and 14 only log and leave it unchanged; the case for 15
sets EC_ACTIVATION_FAILED_ALREADY_ACTIVATED; 53 falls through to the
default, which also leaves it unchanged. -/
def activateErrorCode (details : Nat) : Nat :=
  match details with
  | 9 => EC_ACTIVATION_FAILED
  | 14 => EC_ACTIVATION_FAILED
  | 15 => EC_ACTIVATION_FAILED_ALREADY_ACTIVATED
  | 53 => EC_ACTIVATION_FAILED
  | _ => EC_ACTIVATION_FAILED

/-- Embedding of activate from steam/key_activator.js. The session readiness
flag and the platform response to a submitted key are passed explicitly.
The first component lists the redemption requests issued to the platform
session (the activateKey calls); the second is the settled promise:
Except.ok on resolve, Except.error with the numeric error code on reject. -/
def activate (ready : Bool) (cdKey : String)
    (respond : String → PurchaseResponse) : List String × Except Nat String :=
  if !ready then ([], .error EC_NOT_INITED)
  else
    let k := jsTrim cdKey
    let resp := respond k
    if resp.eresult = EResult_OK then ([k], .ok k)
    else ([k], .error (activateErrorCode resp.purchase_result_details))

/-! ## Handler loading (telegram/event-handler.js, loadHandlers) and the
startup promise chain of index.js -/

/-- Embedding of loadHandlers: given the directory listing of the handlers
folder, reject when it is empty, otherwise load every file and resolve with
the count. The first component lists the handler files loaded, in order. -/
def loadHandlersRun (files : List String) : List String × Except String Nat :=
  if files.length = 0 then ([], .error "No event handlers found")
  else (files, .ok files.length)

/-- Process outcome of the startup promise chain in index.js at the
loadHandlers stage: a rejection reaches the final catch, which logs and
calls process.exit; a resolution keeps the process running. -/
inductive ProcessState where
  | running
  | terminated
deriving DecidableEq, Repr

/-- The index.js chain outcome as a function of the handlers directory
listing. -/
def startupState (files : List String) : ProcessState :=
  match (loadHandlersRun files).2 with
  | .error _ => .terminated
  | .ok _ => .running

/-- Initial value of the closure-captured lastMsg variable in the g2keys
handler. -/
def lastMsgInit : String := ""

/-- Membership in [A-Za-z0-9-], the character set the spec asserts for
normalized keys. -/
def isAlnumDash (c : Char) : Bool :=
  (decide ('A' ≤ c) && decide (c ≤ 'Z')) ||
  (decide ('a' ≤ c) && decide (c ≤ 'z')) ||
  (decide ('0' ≤ c) && decide (c ≤ '9')) ||
  (c == '-')

/-! ## Theorems -/

@[simp] lemma data_mk (l : List Char) : (String.mk l).data = l := rfl

/-- Claim C3: calling activate while the session is not ready rejects with
EC_NOT_INITED and issues no redemption request to the platform session,
whatever the input string and whatever the platform would have answered.
The call settles as an ordinary rejection, so the process is not
terminated. -/
theorem c3_not_initialized (cdKey : String) (respond : String → PurchaseResponse) :
    activate false cdKey respond = ([], .error EC_NOT_INITED) := rfl

/-- Claim C10: the deduplication state starts out as the empty string, so
the first new-channel-message on the g2keys channel whose body is the empty
string is suppressed as a duplicate even though nothing was processed
before. -/
theorem c10_empty_body_suppressed_at_start :
    lastMsgInit = "" ∧
    g2keysEventsFilter lastMsgInit (g2keysTextEvent "") = (lastMsgInit, none) := by
  exact ⟨rfl, rfl⟩

/-- Claim C4: the text filter retains the last body it returned; of two
consecutive events on the g2keys channel with identical bodies only the
first yields an extraction, while two consecutive events with distinct
bodies both yield extractions (stated from any dedup state that differs
from the first body, the generic situation; claim C10 covers the initial
edge case). -/
theorem c4_dedup (s b1 b2 : String) (h1 : b1 ≠ s) (h2 : b2 ≠ b1) :
    (g2keysEventsFilter s (g2keysTextEvent b1)).2 = some b1 ∧
    (g2keysEventsFilter (g2keysEventsFilter s (g2keysTextEvent b1)).1
      (g2keysTextEvent b1)).2 = none ∧
    (g2keysEventsFilter (g2keysEventsFilter s (g2keysTextEvent b1)).1
      (g2keysTextEvent b2)).2 = some b2 := by
  have h1s : s ≠ b1 := Ne.symm h1
  have h2s : b1 ≠ b2 := Ne.symm h2
  refine ⟨?_, ?_, ?_⟩ <;>
    simp [g2keysEventsFilter, g2keysTextEvent, g2keysScan, h1s, h2s]

/-- Witness for claim C4 at a concrete state and concrete bodies. -/
theorem c4_dedup_witness :
    (g2keysEventsFilter "" (g2keysTextEvent "A")).2 = some "A" ∧
    (g2keysEventsFilter (g2keysEventsFilter "" (g2keysTextEvent "A")).1
      (g2keysTextEvent "A")).2 = none ∧
    (g2keysEventsFilter (g2keysEventsFilter "" (g2keysTextEvent "A")).1
      (g2keysTextEvent "B")).2 = some "B" :=
  c4_dedup "" "A" "B" (by decide) (by decide)

/-- Claim C5: parseCdKey returns the first maximal run of at least 5
characters from the class of space, upper-case letters, digits, em-dash and
dash, trimmed of surrounding whitespace; on the spec's example message it
yields exactly AB12C-DE34F-GH56I. -/
theorem c5_first_run_extracted :
    (∀ (s : String) (keys : List String), jsMatchKeyPattern s = some keys →
        ∀ h0 : 0 < keys.length,
        parseCdKey s = .ok (some (jsTrim (keys.get ⟨0, h0⟩)))) ∧
    parseCdKey "Get your key: AB12C-DE34F-GH56I now!" =
      .ok (some "AB12C-DE34F-GH56I") := by
  constructor
  · intro s keys h h0
    simp [parseCdKey, h, h0]
  · rfl

/-- Witness for claim C5's general part at a concrete message. -/
theorem c5_first_run_extracted_witness :
    parseCdKey "ABCDE" =
      .ok (some (jsTrim ((["ABCDE"] : List String).get ⟨0, by decide⟩))) :=
  c5_first_run_extracted.1 "ABCDE" ["ABCDE"] rfl (by decide)

/-- Claim C2 (failing input): a fresh message body with no run matching the
extraction pattern on the g2keys channel makes parseCdKey evaluate
null.length, and the resulting TypeError escapes the handler to the event
emitter instead of being caught inside the pipeline run. -/
theorem c2_uncaught_typeerror :
    g2keysHandlerStep lastMsgInit (g2keysTextEvent "hi") =
      ("hi", .error "TypeError: Cannot read property length of null") := rfl

/-- Claim C9: loading zero handler files rejects with the no-handlers error
and the startup chain terminates the process; loading n greater than zero
files loads every one of them and resolves with n, leaving the process
running. -/
theorem c9_no_handlers_fatal (files : List String) :
    (files.length = 0 →
      (loadHandlersRun files).2 = .error "No event handlers found" ∧
      startupState files = .terminated) ∧
    (0 < files.length →
      (loadHandlersRun files).1 = files ∧
      (loadHandlersRun files).2 = .ok files.length ∧
      startupState files = .running) := by
  constructor
  · intro h
    simp [loadHandlersRun, startupState, h]
  · intro h
    simp [loadHandlersRun, startupState, Nat.pos_iff_ne_zero.mp h]

/-- Witness for claim C9 at the empty listing and at a one-file listing. -/
theorem c9_no_handlers_fatal_witness :
    ((loadHandlersRun []).2 = .error "No event handlers found" ∧
      startupState [] = .terminated) ∧
    ((loadHandlersRun ["freebie_steam-handler.js"]).1 = ["freebie_steam-handler.js"] ∧
      (loadHandlersRun ["freebie_steam-handler.js"]).2 = .ok 1 ∧
      startupState ["freebie_steam-handler.js"] = .running) :=
  ⟨(c9_no_handlers_fatal []).1 rfl,
   (c9_no_handlers_fatal ["freebie_steam-handler.js"]).2 (by decide)⟩

/-- Claim C8: the image filter matches only new-channel-messages on its
channel with empty body and a photo media; on every matched event with a
nonempty size list it returns the last size entry's location and size with
the photo id; on the spec's three-size example it selects the size-200
entry. -/
theorem c8_image_filter :
    (∀ u : TgUpdate,
        ¬(u.kind = UpdateKind.updateNewChannelMessage ∧
          u.message.to_id.channel_id = freebieChatId ∧
          u.message.message = "" ∧
          ∃ media, u.message.media = some media ∧
            media.kind = MediaKind.messageMediaPhoto) →
        freebieEventsFilter (.updates [u]) = .ok none) ∧
    (∀ (sizes : List PhotoSize) (pid : Nat) (h : sizes ≠ []),
        freebieEventsFilter (.updates [⟨.updateNewChannelMessage,
          ⟨⟨freebieChatId⟩, "", some ⟨.messageMediaPhoto, ⟨pid, sizes⟩⟩⟩⟩]) =
          .ok (some ⟨(sizes.getLast h).location, (sizes.getLast h).size, pid⟩)) ∧
    freebieEventsFilter (.updates [⟨.updateNewChannelMessage,
      ⟨⟨freebieChatId⟩, "", some ⟨.messageMediaPhoto,
        ⟨7, [⟨⟨2, 11, 12, 13⟩, 10⟩, ⟨⟨2, 21, 22, 23⟩, 50⟩,
             ⟨⟨2, 31, 32, 33⟩, 200⟩]⟩⟩⟩⟩]) =
      .ok (some ⟨⟨2, 31, 32, 33⟩, 200, 7⟩) := by
  refine ⟨?_, ?_, rfl⟩
  · intro u hu
    by_cases h1 : u.kind = UpdateKind.updateNewChannelMessage
    · by_cases h2 : u.message.to_id.channel_id = freebieChatId
      · by_cases h3 : u.message.message = ""
        · match hm : u.message.media with
          | none => simp [freebieEventsFilter, freebieScan, h1, h2, h3, hm]
          | some media =>
            by_cases h4 : media.kind = MediaKind.messageMediaPhoto
            · exact absurd ⟨h1, h2, h3, media, hm, h4⟩ hu
            · simp [freebieEventsFilter, freebieScan, h1, h2, h3, hm, h4]
        · simp [freebieEventsFilter, freebieScan, h1, h2, h3]
      · simp [freebieEventsFilter, freebieScan, h1, h2]
    · simp [freebieEventsFilter, freebieScan, h1]
  · intro sizes pid h
    simp [freebieEventsFilter, freebieScan, List.getLast?_eq_getLast sizes h]

/-- Witness for claim C8: a non-matching update yields no file info, and a
matched single-size event selects that size entry. -/
theorem c8_image_filter_witness :
    freebieEventsFilter (.updates [⟨.otherUpdate, ⟨⟨freebieChatId⟩, "", none⟩⟩]) =
      .ok none ∧
    freebieEventsFilter (.updates [⟨.updateNewChannelMessage,
      ⟨⟨freebieChatId⟩, "", some ⟨.messageMediaPhoto,
        ⟨5, [⟨⟨2, 1, 2, 3⟩, 42⟩]⟩⟩⟩⟩]) = .ok (some ⟨⟨2, 1, 2, 3⟩, 42, 5⟩) :=
  ⟨c8_image_filter.1 ⟨.otherUpdate, ⟨⟨freebieChatId⟩, "", none⟩⟩
      (fun hc => UpdateKind.noConfusion hc.1),
   c8_image_filter.2.1 [⟨⟨2, 1, 2, 3⟩, 42⟩] 5 (by decide)⟩

/-- Claim C1 fails on the code: there is no assignment of error kinds with
ALREADY_OWNED for detail code 9 and INVALID for detail code 14 distinct
from the generic failure kind, because the code rejects detail codes 9, 14
and 53 with one and the same error code EC_ACTIVATION_FAILED. -/
theorem c1_counterexample :
    (activate true "K" (fun _ => ⟨2, 9⟩)).2 = .error EC_ACTIVATION_FAILED ∧
    (activate true "K" (fun _ => ⟨2, 14⟩)).2 = .error EC_ACTIVATION_FAILED ∧
    (activate true "K" (fun _ => ⟨2, 53⟩)).2 = .error EC_ACTIVATION_FAILED ∧
    ¬ ∃ owned invalid activated failed : Nat,
        owned ≠ failed ∧ invalid ≠ failed ∧
        ∀ details : Nat, activateErrorCode details =
          if details = 9 then owned
          else if details = 14 then invalid
          else if details = 15 then activated
          else failed := by
  refine ⟨rfl, rfl, rfl, ?_⟩
  rintro ⟨o, i, a, f, ho, hi, h⟩
  have h9 := h 9
  have h53 := h 53
  simp [activateErrorCode] at h9 h53
  exact ho (h9.symm.trans h53)

/-- The switch in activate collapses to: detail code 15 gives the distinct
already-activated code, everything else gives the generic failure code. -/
lemma activateErrorCode_eq (d : Nat) :
    activateErrorCode d =
      if d = 15 then EC_ACTIVATION_FAILED_ALREADY_ACTIVATED
      else EC_ACTIVATION_FAILED := by
  unfold activateErrorCode
  split <;> simp_all

/-- Claim C1 as amended: for every non-OK redemption response, activate
rejects with an error code determined solely by the detail code, namely
EC_ACTIVATION_FAILED_ALREADY_ACTIVATED when the detail code is 15 and the
generic EC_ACTIVATION_FAILED for every other non-OK detail code, including
9, 14 and 53; detail codes 9 and 14 are distinguished only in log output. -/
theorem c1_amended_error_mapping (cdKey : String)
    (respond : String → PurchaseResponse)
    (hfail : (respond (jsTrim cdKey)).eresult ≠ EResult_OK) :
    (activate true cdKey respond).2 =
      .error (if (respond (jsTrim cdKey)).purchase_result_details = 15
              then EC_ACTIVATION_FAILED_ALREADY_ACTIVATED
              else EC_ACTIVATION_FAILED) := by
  simp [activate, hfail, activateErrorCode_eq]

/-- Witness for the amended claim C1 at detail code 9 with a non-OK
result. -/
theorem c1_amended_error_mapping_witness :
    (activate true "KEY" (fun _ => ⟨2, 9⟩)).2 =
      .error (if (9 : Nat) = 15 then EC_ACTIVATION_FAILED_ALREADY_ACTIVATED
              else EC_ACTIVATION_FAILED) :=
  c1_amended_error_mapping "KEY" (fun _ => ⟨2, 9⟩) (by decide)

/-- A character kept by the normalization filter that also lies in the
extraction class maps under the dash conversion into [A-Za-z0-9-]. -/
lemma conv_keep_class (c : Char) (hc : inKeyClass c = true)
    (hk : keepChar c = true) : isAlnumDash (convChar c) = true := by
  by_cases hw : isWordChar c = true
  · have hne1 : c ≠ '—' := by
      intro he; rw [he] at hw; exact absurd hw (by decide)
    have hne2 : c ≠ '-' := by
      intro he; rw [he] at hw; exact absurd hw (by decide)
    have hne3 : c ≠ '_' := by
      intro he; rw [he] at hc; exact absurd hc (by decide)
    have hconv : convChar c = c := by
      simp [convChar, hne1, hne2]
    rw [hconv]
    simp only [isWordChar, Bool.or_eq_true, Bool.and_eq_true,
      decide_eq_true_eq, beq_iff_eq] at hw
    simp only [isAlnumDash, Bool.or_eq_true, Bool.and_eq_true,
      decide_eq_true_eq, beq_iff_eq]
    rcases hw with ((h1 | h2) | h3) | h4
    · exact Or.inl (Or.inl (Or.inl h1))
    · exact Or.inl (Or.inl (Or.inr h2))
    · exact Or.inl (Or.inr h3)
    · exact absurd h4 hne3
  · simp only [keepChar, Bool.or_eq_true, beq_iff_eq] at hk
    rcases hk with (hk | hk) | hk
    · exact absurd hk hw
    · rw [hk]; decide
    · rw [hk]; decide

/-- Claim C6: for every string of extraction-class characters of length at
least 5, normalization yields only characters of [A-Za-z0-9-], and the
result is a sublist of the dash-converted input, so the relative order of
the surviving characters is preserved. -/
theorem c6_normalize_alphabet_and_order (s : String)
    (hclass : ∀ c ∈ s.data, inKeyClass c = true) (_hlen : 5 ≤ s.length) :
    (∀ c ∈ (filterCdKeyText s).data, isAlnumDash c = true) ∧
    (filterCdKeyText s).data.Sublist (s.data.map convChar) := by
  constructor
  · intro c hc
    simp only [filterCdKeyText, data_mk, List.mem_map] at hc
    obtain ⟨a, ha, rfl⟩ := hc
    rw [List.mem_filter] at ha
    exact conv_keep_class a (hclass a ha.1) ha.2
  · exact List.Sublist.map convChar (List.filter_sublist s.data)

/-- Witness for claim C6 at a concrete extraction-pattern match. -/
theorem c6_normalize_alphabet_and_order_witness :
    (∀ c ∈ (filterCdKeyText "AB12C—DE34F").data, isAlnumDash c = true) ∧
    (filterCdKeyText "AB12C—DE34F").data.Sublist
      ("AB12C—DE34F".data.map convChar) :=
  c6_normalize_alphabet_and_order "AB12C—DE34F" (by decide) (by decide)

/-- A character kept by the normalization filter stays kept after the dash
conversion, and the dash conversion is the identity on its own image. -/
lemma keep_conv_fixed (c : Char) (hk : keepChar c = true) :
    keepChar (convChar c) = true ∧ convChar (convChar c) = convChar c := by
  by_cases hw : isWordChar c = true
  · have hne1 : c ≠ '—' := by
      intro he; rw [he] at hw; exact absurd hw (by decide)
    have hne2 : c ≠ '-' := by
      intro he; rw [he] at hw; exact absurd hw (by decide)
    have hconv : convChar c = c := by
      simp [convChar, hne1, hne2]
    rw [hconv]
    exact ⟨hk, hconv⟩
  · simp only [keepChar, Bool.or_eq_true, beq_iff_eq] at hk
    rcases hk with (hk | hk) | hk
    · exact absurd hk hw
    · rw [hk]; exact ⟨by decide, by decide⟩
    · rw [hk]; exact ⟨by decide, by decide⟩

/-- Claim C7: the normalization function is idempotent. -/
theorem c7_normalize_idempotent (s : String) :
    filterCdKeyText (filterCdKeyText s) = filterCdKeyText s := by
  simp only [filterCdKeyText, data_mk]
  congr 1
  have h1 : ((s.data.filter keepChar).map convChar).filter keepChar =
      (s.data.filter keepChar).map convChar := by
    rw [List.filter_eq_self]
    intro a ha
    rw [List.mem_map] at ha
    obtain ⟨b, hb, rfl⟩ := ha
    exact (keep_conv_fixed b (List.mem_filter.mp hb).2).1
  rw [h1, List.map_map]
  apply List.map_congr_left
  intro a ha
  rw [List.mem_filter] at ha
  exact (keep_conv_fixed a ha.2).2
